import Mathlib

/-!
Verification development for the virtual character controller
(`Jolt/Physics/Character/CharacterVirtual.cpp`).

The C++ code is shallowly embedded over exact rationals: every `float`
quantity becomes a `ℚ`, machine `FLT_MAX` becomes the rational value of the
float constant, and the external collaborators (narrow-phase queries, body
locks, the contact listener) become explicit oracle functions bundled in an
`Env` record.  All definitions are computable so that concrete runs of the
embedded code can be evaluated inside proofs.
-/

set_option linter.unusedVariables false

namespace JPH

/-- Vector of three rational coordinates, modelling `Vec3`. -/
structure Vec3 where
  x : ℚ
  y : ℚ
  z : ℚ
deriving DecidableEq

instance : Inhabited Vec3 := ⟨⟨0, 0, 0⟩⟩

/-- Zero vector, modelling `Vec3::sZero()`. -/
def Vec3.zero : Vec3 := ⟨0, 0, 0⟩

instance : Add Vec3 := ⟨fun a b => ⟨a.x + b.x, a.y + b.y, a.z + b.z⟩⟩

instance : Sub Vec3 := ⟨fun a b => ⟨a.x - b.x, a.y - b.y, a.z - b.z⟩⟩

instance : Neg Vec3 := ⟨fun a => ⟨-a.x, -a.y, -a.z⟩⟩

instance : SMul ℚ Vec3 := ⟨fun q v => ⟨q * v.x, q * v.y, q * v.z⟩⟩

/-- Dot product, modelling `Vec3::Dot`. -/
def Vec3.dot (a b : Vec3) : ℚ := a.x * b.x + a.y * b.y + a.z * b.z

/-- Cross product, modelling `Vec3::Cross`. -/
def Vec3.cross (a b : Vec3) : Vec3 :=
  ⟨a.y * b.z - a.z * b.y, a.z * b.x - a.x * b.z, a.x * b.y - a.y * b.x⟩

/-- Squared length, modelling `Vec3::LengthSq`. -/
def Vec3.lengthSq (v : Vec3) : ℚ := v.dot v

/-- Newton iteration used by `sqrtQ`. -/
def newtonSqrt : Nat → ℚ → ℚ → ℚ
  | 0, _, g => g
  | n + 1, x, g => newtonSqrt n x ((g + x / g) / 2)

/-- Rational stand-in for the float square root: the C++ code only uses square
roots to normalize direction vectors, and no verified claim depends on the
numeric value, so an approximate (always positive on positive input) Newton
iteration is an adequate model. -/
def sqrtQ (x : ℚ) : ℚ := if x ≤ 0 then 0 else newtonSqrt 8 x (x / 2 + 1 / 2)

/-- Normalization, modelling `Vec3::Normalized` via `sqrtQ` (division by zero
yields the zero vector, as rational division by zero is zero). -/
def normalizedQ (v : Vec3) : Vec3 :=
  let len := sqrtQ v.lengthSq
  ⟨v.x / len, v.y / len, v.z / len⟩

/-- Exact rational value of the IEEE single precision constant `FLT_MAX`,
namely `2^128 - 2^104`, which the code uses as a stand-in for an infinite
time of impact and as the sentinel for a disabled `SetShape` penetration
check (written as a literal so that kernel evaluation stays shallow). -/
def fltMax : ℚ := 340282346638528859811704183484516925440

/- Tunable constants.  The header with their definitions is not part of the
sources, so their values are modelled from the spec (section 6, tunable
constants); every claim below is either independent of the concrete values or
cites them exactly as the spec fixes them. -/

/-- Modelled from the spec: `PREDICTIVE_CONTACT_DISTANCE ≈ 0.01` (only used
inside the external query settings, kept for completeness). -/
def cPredictiveContactDistance : ℚ := 1 / 100

/-- Modelled from the spec: `CHARACTER_PADDING = 0.02`. -/
def cCharacterPadding : ℚ := 1 / 50

/-- Modelled from the spec: `COLLISION_TOLERANCE = 10⁻³`. -/
def cCollisionTolerance : ℚ := 1 / 1000

/-- Modelled from the spec: `MIN_TIME_REMAINING = 10⁻⁴`. -/
def cMinTimeRemaining : ℚ := 1 / 10000

/-- Modelled from the spec: `MAX_COLLISION_ITERATIONS = 5`. -/
def cMaxCollisionIterations : Nat := 5

/-- Modelled from the spec: `MAX_CONSTRAINT_ITERATIONS = 15`. -/
def cMaxConstraintIterations : Nat := 15

/-- Modelled from the spec: `MAX_NUM_HITS = 256`. -/
def cMaxNumHits : Nat := 256

/-- Modelled from the spec: the motion type enumeration of the engine, listed
in the order the spec gives it (static / kinematic / dynamic, section 3),
which is also the declaration order of the C++ `enum class EMotionType`. -/
inductive EMotionType where
  | Static
  | Kinematic
  | Dynamic
deriving DecidableEq

/-- Underlying integral value of the motion type enumerator; C++ relational
operators on the enum compare these values. -/
def EMotionType.val : EMotionType → Nat
  | .Static => 0
  | .Kinematic => 1
  | .Dynamic => 2

instance : Inhabited EMotionType := ⟨.Static⟩

/-- Contact record, modelling `CharacterVirtual::Contact`.  Bodies, sub-shape
ids, materials and user data are identified by naturals.  The boolean flags
default to the values of a default-constructed C++ `Contact`. -/
structure Contact where
  position : Vec3 := Vec3.zero
  linearVelocity : Vec3 := Vec3.zero
  normal : Vec3 := Vec3.zero
  distance : ℚ := 0
  fraction : ℚ := 0
  bodyB : Nat := 0
  subShapeIDB : Nat := 0
  motionTypeB : EMotionType := .Static
  userData : Nat := 0
  material : Nat := 0
  hadCollision : Bool := false
  wasDiscarded : Bool := false
  canPushCharacter : Bool := true
deriving DecidableEq

instance : Inhabited Contact := ⟨{}⟩

/-- Pair recorded for contacts dropped by conflict pruning, modelling
`CharacterVirtual::IgnoredContact`. -/
structure IgnoredContact where
  bodyID : Nat
  subShapeID : Nat
deriving DecidableEq

/-- Plane as stored by `Plane(normal, constant)`. -/
structure Plane where
  normal : Vec3
  constant : ℚ
deriving DecidableEq

/-- Signed distance of a point to the plane, modelling `Plane::SignedDistance`. -/
def Plane.signedDistance (p : Plane) (pt : Vec3) : ℚ := Vec3.dot p.normal pt + p.constant

/-- Constraint record, modelling `CharacterVirtual::Constraint`.  The C++
`mContact` pointer is modelled as an index into the contact list the solver
works on.  `projectedVelocity` and `toi` are scratch values recomputed each
solver iteration (uninitialized in C++ until then; defaulted to `0` here). -/
structure Constraint where
  contactIdx : Nat
  linearVelocity : Vec3
  plane : Plane
  projectedVelocity : ℚ := 0
  toi : ℚ := 0
deriving DecidableEq

instance : Inhabited Constraint := ⟨⟨0, Vec3.zero, ⟨Vec3.zero, 0⟩, 0, 0⟩⟩

/-- Listener result of `OnContactAdded`, modelling `CharacterContactSettings`
(defaults are the C++ member initializers). -/
structure CharacterContactSettings where
  canPushCharacter : Bool := true
  canReceiveImpulses : Bool := true
deriving DecidableEq

/-! ### Time of impact computation (`SolveConstraints`, lines 347-372) -/

/-- One constraint update of the loop at the start of every solver iteration
(`SolveConstraints` lines 348-372): recompute `mProjectedVelocity` and `mTOI`
from the current solver velocity, accumulated displacement and remaining
time. -/
def updateConstraintTOI (velocity displacement : Vec3) (timeRemaining : ℚ)
    (c : Constraint) : Constraint :=
  let pv := Vec3.dot c.plane.normal (c.linearVelocity - velocity)
  let toi :=
    if pv < 1 / 1000000 then fltMax
    else
      let dist := c.plane.signedDistance displacement
      if dist - pv * timeRemaining > -(1 / 10000) then fltMax
      else max 0 (dist / pv)
  { c with projectedVelocity := pv, toi := toi }

/-! ### Constraint ordering (`SolveConstraints`, lines 374-387) -/

/-- Comparator passed to `sort` over constraint pointers, modelling the lambda
at `SolveConstraints` lines 375-387.  Returns `true` when the left constraint
must be ordered before the right one.  The contact list resolves the
`mContact` index to read the motion type of the other body. -/
def constraintLess (contacts : List Contact) (a b : Constraint) : Bool :=
  if a.toi ≤ 0 ∧ b.toi ≤ 0 then
    decide (a.projectedVelocity > b.projectedVelocity)
  else if a.toi ≠ b.toi then
    decide (a.toi < b.toi)
  else
    decide ((contacts.getD a.contactIdx default).motionTypeB.val >
      (contacts.getD b.contactIdx default).motionTypeB.val)

/-! ### Claims C1 and C2 -/

/-- Unfolding equation for the `toi` field computed by `updateConstraintTOI`. -/
theorem updateConstraintTOI_toi (velocity displacement : Vec3) (timeRemaining : ℚ)
    (c : Constraint) :
    (updateConstraintTOI velocity displacement timeRemaining c).toi =
      (if Vec3.dot c.plane.normal (c.linearVelocity - velocity) < 1 / 1000000 then fltMax
       else if c.plane.signedDistance displacement -
              Vec3.dot c.plane.normal (c.linearVelocity - velocity) * timeRemaining >
              -(1 / 10000) then fltMax
       else max 0 (c.plane.signedDistance displacement /
              Vec3.dot c.plane.normal (c.linearVelocity - velocity))) := rfl

/-- C1: at the start of every solver iteration each constraint TOI is
recomputed as: `projected_velocity = plane_normal · (linear_velocity −
velocity)`; if `projected_velocity < 10⁻⁶` then `toi = FLT_MAX` (the code
stand-in for `+∞`); otherwise, with `dist` the signed distance of the
accumulated displacement to the constraint plane, if `dist −
projected_velocity · time_remaining > −10⁻⁴` then `toi = FLT_MAX`; otherwise
`toi = max 0 (dist / projected_velocity)`. -/
theorem c1_toi_formula (velocity displacement : Vec3) (timeRemaining : ℚ)
    (c : Constraint) :
    (updateConstraintTOI velocity displacement timeRemaining c).projectedVelocity =
      Vec3.dot c.plane.normal (c.linearVelocity - velocity) ∧
    (Vec3.dot c.plane.normal (c.linearVelocity - velocity) < 1 / 1000000 →
      (updateConstraintTOI velocity displacement timeRemaining c).toi = fltMax) ∧
    (¬ Vec3.dot c.plane.normal (c.linearVelocity - velocity) < 1 / 1000000 →
      c.plane.signedDistance displacement -
          Vec3.dot c.plane.normal (c.linearVelocity - velocity) * timeRemaining >
          -(1 / 10000) →
      (updateConstraintTOI velocity displacement timeRemaining c).toi = fltMax) ∧
    (¬ Vec3.dot c.plane.normal (c.linearVelocity - velocity) < 1 / 1000000 →
      ¬ c.plane.signedDistance displacement -
          Vec3.dot c.plane.normal (c.linearVelocity - velocity) * timeRemaining >
          -(1 / 10000) →
      (updateConstraintTOI velocity displacement timeRemaining c).toi =
        max 0 (c.plane.signedDistance displacement /
          Vec3.dot c.plane.normal (c.linearVelocity - velocity))) := by
  refine ⟨rfl, fun h1 => ?_, fun h1 h2 => ?_, fun h1 h2 => ?_⟩
  · rw [updateConstraintTOI_toi, if_pos h1]
  · rw [updateConstraintTOI_toi, if_neg h1, if_pos h2]
  · rw [updateConstraintTOI_toi, if_neg h1, if_neg h2]

/-- Witness for `c1_toi_formula`: a concrete approaching constraint whose TOI
falls in the `max 0 (dist / projected_velocity)` case. -/
theorem c1_toi_formula_witness :
    (updateConstraintTOI ⟨1, 0, 0⟩ Vec3.zero 1
        ⟨0, Vec3.zero, ⟨⟨-1, 0, 0⟩, -1/2⟩, 0, 0⟩).toi =
      max 0 ((Plane.signedDistance ⟨⟨-1, 0, 0⟩, -1/2⟩ Vec3.zero) /
        Vec3.dot ⟨-1, 0, 0⟩ (Vec3.zero - ⟨1, 0, 0⟩)) :=
  (c1_toi_formula ⟨1, 0, 0⟩ Vec3.zero 1
      ⟨0, Vec3.zero, ⟨⟨-1, 0, 0⟩, -1/2⟩, 0, 0⟩).2.2.2
    (of_decide_eq_true (by with_unfolding_all rfl))
    (of_decide_eq_true (by with_unfolding_all rfl))

/-- C2 (code evaluation at the failing input): for two constraints with equal
positive TOI and equal projected velocity, one resting on a static body and
one on a dynamic body, the comparator of `SolveConstraints` orders the
dynamic constraint strictly before the static one, although the comment above
it (and the spec) say static must be sorted first. -/
theorem c2_sort_tiebreak_eval :
    constraintLess
        [{ motionTypeB := .Static }, { motionTypeB := .Dynamic }]
        ⟨1, Vec3.zero, ⟨⟨1, 0, 0⟩, 0⟩, 1, 1/100⟩
        ⟨0, Vec3.zero, ⟨⟨1, 0, 0⟩, 0⟩, 1, 1/100⟩ = true ∧
    constraintLess
        [{ motionTypeB := .Static }, { motionTypeB := .Dynamic }]
        ⟨0, Vec3.zero, ⟨⟨1, 0, 0⟩, 0⟩, 1, 1/100⟩
        ⟨1, Vec3.zero, ⟨⟨1, 0, 0⟩, 0⟩, 1, 1/100⟩ = false := by
  constructor
  · with_unfolding_all rfl
  · with_unfolding_all rfl

/-! ### Conflict pruning (`RemoveConflictingContacts`, lines 110-147) -/

/-- Conflict threshold of `RemoveConflictingContacts`, line 114:
`cMinRequiredPenetration = 0.005f + cCharacterPadding`. -/
def cMinRequiredPenetration : ℚ := 5 / 1000 + cCharacterPadding

/-- Pair condition tested by `RemoveConflictingContacts`: same body, both
penetrating beyond `cMinRequiredPenetration`, opposing normals. -/
def Conflicting (a b : Contact) : Prop :=
  a.bodyB = b.bodyB ∧ a.distance ≤ -cMinRequiredPenetration ∧
    b.distance ≤ -cMinRequiredPenetration ∧ Vec3.dot a.normal b.normal < 0

instance (a b : Contact) : Decidable (Conflicting a b) := by
  unfold Conflicting; infer_instance

/-- Inner loop of `RemoveConflictingContacts` (lines 121-145): scan the
contacts after `contact1` from left to right.  The boolean is `false` exactly
when `contact1` itself was discarded (the C++ loop then breaks with `c1--`);
the list is the resulting tail and the last component the extended ignored
list.  When `contact1` is the deeper member of a conflicting pair the partner
is dropped from the tail, recorded, and scanning continues. -/
def rccInner (contact1 : Contact) : List Contact → List IgnoredContact →
    Bool × List Contact × List IgnoredContact
  | [], ignored => (true, [], ignored)
  | contact2 :: rest, ignored =>
    if contact1.bodyB = contact2.bodyB ∧
        contact2.distance ≤ -cMinRequiredPenetration ∧
        Vec3.dot contact1.normal contact2.normal < 0 then
      if contact1.distance < contact2.distance then
        rccInner contact1 rest (ignored ++ [⟨contact2.bodyB, contact2.subShapeIDB⟩])
      else
        (false, contact2 :: rest, ignored ++ [⟨contact1.bodyB, contact1.subShapeIDB⟩])
    else
      ((rccInner contact1 rest ignored).1,
       contact2 :: (rccInner contact1 rest ignored).2.1,
       (rccInner contact1 rest ignored).2.2)

/-- The tail returned by `rccInner` is a sublist of the scanned tail. -/
theorem rccInner_sublist (contact1 : Contact) :
    ∀ (l : List Contact) (ignored : List IgnoredContact),
      ((rccInner contact1 l ignored).2.1).Sublist l := by
  intro l
  induction l with
  | nil => intro ignored; simp [rccInner]
  | cons contact2 rest ih =>
    intro ignored
    simp only [rccInner]
    split
    · split
      · exact (ih _).cons contact2
      · exact List.Sublist.refl _
    · exact (ih _).cons₂ contact2

/-- Entries already in the ignored list survive `rccInner`. -/
theorem rccInner_ign_mono (contact1 : Contact) :
    ∀ (l : List Contact) (ignored : List IgnoredContact) (x : IgnoredContact),
      x ∈ ignored → x ∈ (rccInner contact1 l ignored).2.2 := by
  intro l
  induction l with
  | nil => intro ignored x hx; simpa [rccInner] using hx
  | cons contact2 rest ih =>
    intro ignored x hx
    simp only [rccInner]
    split
    · split
      · exact ih _ x (by simp [hx])
      · simp [hx]
    · exact ih _ x hx

/-- When `rccInner` discards `contact1`, its pair is recorded. -/
theorem rccInner_false_recorded (contact1 : Contact) :
    ∀ (l : List Contact) (ignored : List IgnoredContact),
      (rccInner contact1 l ignored).1 = false →
      (⟨contact1.bodyB, contact1.subShapeIDB⟩ : IgnoredContact) ∈
        (rccInner contact1 l ignored).2.2 := by
  intro l
  induction l with
  | nil => intro ignored h; simp [rccInner] at h
  | cons contact2 rest ih =>
    intro ignored h
    simp only [rccInner] at h ⊢
    split at h
    · split at h
      · rw [if_pos (by assumption), if_pos (by assumption)]
        exact ih _ h
      · rw [if_pos (by assumption), if_neg (by assumption)]
        simp
    · rw [if_neg (by assumption)]
      exact ih _ h

/-- Every scanned contact either survives `rccInner` or is recorded in the
ignored list. -/
theorem rccInner_acc (contact1 : Contact) :
    ∀ (l : List Contact) (ignored : List IgnoredContact) (c : Contact), c ∈ l →
      c ∈ (rccInner contact1 l ignored).2.1 ∨
      (⟨c.bodyB, c.subShapeIDB⟩ : IgnoredContact) ∈ (rccInner contact1 l ignored).2.2 := by
  intro l
  induction l with
  | nil => intro ignored c hc; simp at hc
  | cons contact2 rest ih =>
    intro ignored c hc
    simp only [rccInner]
    split
    · split
      · rcases List.mem_cons.mp hc with hc2 | hcr
        · subst hc2
          exact Or.inr (rccInner_ign_mono contact1 rest _ _ (by simp))
        · exact ih _ c hcr
      · rcases List.mem_cons.mp hc with hc2 | hcr
        · exact Or.inl (by simp [hc2])
        · exact Or.inl (by simp [hcr])
    · rcases List.mem_cons.mp hc with hc2 | hcr
      · exact Or.inl (by simp [hc2])
      · rcases ih ignored c hcr with h | h
        · exact Or.inl (by simp [h])
        · exact Or.inr h

/-- When `contact1` survives the inner scan, nothing left in the tail
conflicts with it. -/
theorem rccInner_keeps_clean (contact1 : Contact) :
    ∀ (l : List Contact) (ignored : List IgnoredContact),
      (rccInner contact1 l ignored).1 = true →
      ∀ b ∈ (rccInner contact1 l ignored).2.1, ¬ Conflicting contact1 b := by
  intro l
  induction l with
  | nil => intro ignored _ b hb; simp [rccInner] at hb
  | cons contact2 rest ih =>
    intro ignored htrue b hb
    simp only [rccInner] at htrue hb
    split at htrue
    · split at htrue
      · rw [if_pos (by assumption), if_pos (by assumption)] at hb
        exact ih _ htrue b hb
      · simp at htrue
    · rw [if_neg (by assumption)] at hb
      rcases List.mem_cons.mp hb with hb2 | hbr
      · subst hb2
        intro hconf
        exact (by assumption : ¬ (contact1.bodyB = b.bodyB ∧
          b.distance ≤ -cMinRequiredPenetration ∧
          Vec3.dot contact1.normal b.normal < 0)) ⟨hconf.1, hconf.2.2.1, hconf.2.2.2⟩
      · exact ih _ htrue b hbr

/-- Outer loop of `RemoveConflictingContacts` (lines 117-146).  The head is
checked for sufficient penetration and scanned against the tail by
`rccInner`; when the head itself is discarded, the loop re-examines the
element now sitting at its index, which is exactly the head of the scanned
tail (the C++ `c1--` followed by the loop increment). -/
def rccOuter (contacts : List Contact) (ignored : List IgnoredContact) :
    List Contact × List IgnoredContact :=
  match contacts with
  | [] => ([], ignored)
  | contact1 :: rest =>
    if contact1.distance ≤ -cMinRequiredPenetration then
      if (rccInner contact1 rest ignored).1 then
        (contact1 ::
            (rccOuter (rccInner contact1 rest ignored).2.1
              (rccInner contact1 rest ignored).2.2).1,
          (rccOuter (rccInner contact1 rest ignored).2.1
            (rccInner contact1 rest ignored).2.2).2)
      else
        rccOuter (rccInner contact1 rest ignored).2.1 (rccInner contact1 rest ignored).2.2
    else
      (contact1 :: (rccOuter rest ignored).1, (rccOuter rest ignored).2)
termination_by contacts.length
decreasing_by
  all_goals simp only [List.length_cons]
  all_goals try exact Nat.lt_succ_of_le (rccInner_sublist _ _ _).length_le
  all_goals omega

/-- Entry point modelling `RemoveConflictingContacts` (the caller passes a
freshly reserved, empty ignored list). -/
def removeConflictingContacts (contacts : List Contact) :
    List Contact × List IgnoredContact :=
  rccOuter contacts []

/-- Combined invariant of the outer pruning loop, proved by strong induction
on the length of the contact list: the survivors are a sublist of the input,
no two survivors conflict, every input contact either survives or has its
identification pair recorded, and previously recorded pairs are kept. -/
theorem rccOuter_spec :
    ∀ (n : Nat) (l : List Contact) (ignored : List IgnoredContact), l.length ≤ n →
      ((rccOuter l ignored).1.Sublist l ∧
       (rccOuter l ignored).1.Pairwise (fun a b => ¬ Conflicting a b) ∧
       (∀ c ∈ l, c ∈ (rccOuter l ignored).1 ∨
          (⟨c.bodyB, c.subShapeIDB⟩ : IgnoredContact) ∈ (rccOuter l ignored).2) ∧
       (∀ x ∈ ignored, x ∈ (rccOuter l ignored).2)) := by
  intro n
  induction n with
  | zero =>
    intro l ignored hlen
    have hnil : l = [] := List.eq_nil_of_length_eq_zero (Nat.le_zero.mp hlen)
    subst hnil
    simp [rccOuter]
  | succ n ih =>
    intro l ignored hlen
    match l with
    | [] => simp [rccOuter]
    | contact1 :: rest =>
      have hlen2 : rest.length ≤ n := by
        simp only [List.length_cons] at hlen; omega
      by_cases hdeep : contact1.distance ≤ -cMinRequiredPenetration
      · by_cases hok : (rccInner contact1 rest ignored).1 = true
        · have hstep : rccOuter (contact1 :: rest) ignored =
              (contact1 ::
                  (rccOuter (rccInner contact1 rest ignored).2.1
                    (rccInner contact1 rest ignored).2.2).1,
                (rccOuter (rccInner contact1 rest ignored).2.1
                  (rccInner contact1 rest ignored).2.2).2) := by
            rw [rccOuter]
            rw [if_pos hdeep, if_pos hok]
          have hsub := rccInner_sublist contact1 rest ignored
          have hlen3 : (rccInner contact1 rest ignored).2.1.length ≤ n :=
            le_trans hsub.length_le hlen2
          obtain ⟨iha, ihb, ihc, ihd⟩ :=
            ih (rccInner contact1 rest ignored).2.1 (rccInner contact1 rest ignored).2.2 hlen3
          refine ⟨?_, ?_, ?_, ?_⟩
          · rw [hstep]
            exact (iha.trans hsub).cons₂ contact1
          · rw [hstep]
            refine List.pairwise_cons.mpr ⟨?_, ihb⟩
            intro b hb
            exact rccInner_keeps_clean contact1 rest ignored hok b (iha.mem hb)
          · intro c hc
            rcases List.mem_cons.mp hc with hc1 | hcr
            · subst hc1
              rw [hstep]
              exact Or.inl (by simp)
            · rcases rccInner_acc contact1 rest ignored c hcr with h | h
              · rcases ihc c h with h2 | h2
                · rw [hstep]; exact Or.inl (by simp [h2])
                · rw [hstep]; exact Or.inr h2
              · rw [hstep]
                exact Or.inr (ihd _ h)
          · intro x hx
            rw [hstep]
            exact ihd x (rccInner_ign_mono contact1 rest ignored x hx)
        · have hok2 : ¬ ((rccInner contact1 rest ignored).1 = true) := hok
          have hstep : rccOuter (contact1 :: rest) ignored =
              rccOuter (rccInner contact1 rest ignored).2.1
                (rccInner contact1 rest ignored).2.2 := by
            rw [rccOuter]
            rw [if_pos hdeep, if_neg hok2]
          have hsub := rccInner_sublist contact1 rest ignored
          have hlen3 : (rccInner contact1 rest ignored).2.1.length ≤ n :=
            le_trans hsub.length_le hlen2
          obtain ⟨iha, ihb, ihc, ihd⟩ :=
            ih (rccInner contact1 rest ignored).2.1 (rccInner contact1 rest ignored).2.2 hlen3
          refine ⟨?_, ?_, ?_, ?_⟩
          · rw [hstep]
            exact (iha.trans hsub).cons contact1
          · rw [hstep]; exact ihb
          · intro c hc
            rcases List.mem_cons.mp hc with hc1 | hcr
            · subst hc1
              rw [hstep]
              refine Or.inr (ihd _ ?_)
              exact rccInner_false_recorded c rest ignored (by simpa using hok)
            · rcases rccInner_acc contact1 rest ignored c hcr with h | h
              · rw [hstep]; exact ihc c h
              · rw [hstep]; exact Or.inr (ihd _ h)
          · intro x hx
            rw [hstep]
            exact ihd x (rccInner_ign_mono contact1 rest ignored x hx)
      · have hstep : rccOuter (contact1 :: rest) ignored =
            (contact1 :: (rccOuter rest ignored).1, (rccOuter rest ignored).2) := by
          rw [rccOuter]
          rw [if_neg hdeep]
        obtain ⟨iha, ihb, ihc, ihd⟩ := ih rest ignored hlen2
        refine ⟨?_, ?_, ?_, ?_⟩
        · rw [hstep]
          exact iha.cons₂ contact1
        · rw [hstep]
          refine List.pairwise_cons.mpr ⟨?_, ihb⟩
          intro b hb hconf
          exact hdeep hconf.2.1
        · intro c hc
          rcases List.mem_cons.mp hc with hc1 | hcr
          · subst hc1
            rw [hstep]
            exact Or.inl (by simp)
          · rcases ihc c hcr with h | h
            · rw [hstep]; exact Or.inl (by simp [h])
            · rw [hstep]; exact Or.inr h
        · intro x hx
          rw [hstep]
          exact ihd x hx

/-- C3: after `RemoveConflictingContacts` no two surviving contacts are on the
same body, both penetrating beyond `cMinRequiredPenetration`, with opposing
normals; every input contact either survives or has its `(body, sub-shape)`
pair appended to the ignored list; and for a conflicting pair the contact
with strictly greater penetration (more negative distance) is the one kept,
the other being recorded. -/
theorem c3_conflict_pruning :
    (∀ l : List Contact,
      (removeConflictingContacts l).1.Pairwise (fun a b => ¬ Conflicting a b)) ∧
    (∀ l : List Contact, ∀ c ∈ l,
      c ∈ (removeConflictingContacts l).1 ∨
      (⟨c.bodyB, c.subShapeIDB⟩ : IgnoredContact) ∈ (removeConflictingContacts l).2) ∧
    (∀ a b : Contact, Conflicting a b → a.distance < b.distance →
      removeConflictingContacts [a, b] = ([a], [⟨b.bodyB, b.subShapeIDB⟩])) ∧
    (∀ a b : Contact, Conflicting a b → ¬ a.distance < b.distance →
      removeConflictingContacts [a, b] = ([b], [⟨a.bodyB, a.subShapeIDB⟩])) := by
  refine ⟨?_, ?_, ?_, ?_⟩
  · intro l
    exact (rccOuter_spec l.length l [] le_rfl).2.1
  · intro l c hc
    exact (rccOuter_spec l.length l [] le_rfl).2.2.1 c hc
  · intro a b hconf hlt
    obtain ⟨h1, h2, h3, h4⟩ := hconf
    have hInner : rccInner a [b] [] = (true, [], [⟨b.bodyB, b.subShapeIDB⟩]) := by
      simp only [rccInner]
      rw [if_pos ⟨h1, h3, h4⟩, if_pos hlt]
      simp [rccInner]
    unfold removeConflictingContacts
    rw [rccOuter]
    rw [if_pos h2, hInner]
    simp [rccOuter]
  · intro a b hconf hlt
    obtain ⟨h1, h2, h3, h4⟩ := hconf
    have hInner : rccInner a [b] [] =
        (false, [b], [⟨a.bodyB, a.subShapeIDB⟩]) := by
      simp only [rccInner]
      rw [if_pos ⟨h1, h3, h4⟩, if_neg hlt]
      simp
    have hInner2 : rccInner b [] ([⟨a.bodyB, a.subShapeIDB⟩] : List IgnoredContact) =
        (true, [], [⟨a.bodyB, a.subShapeIDB⟩]) := by
      simp [rccInner]
    unfold removeConflictingContacts
    rw [rccOuter]
    rw [if_pos h2, hInner]
    simp [rccOuter, hInner2, h3]

/-- Witness for `c3_conflict_pruning`: two opposing deep contacts on body 1;
the deeper first contact is kept and the second recorded. -/
theorem c3_conflict_pruning_witness :
    (removeConflictingContacts
        [{ normal := ⟨1, 0, 0⟩, distance := -1, bodyB := 1, subShapeIDB := 3 },
         { normal := ⟨-1, 0, 0⟩, distance := -1/2, bodyB := 1, subShapeIDB := 4 }]).1.Pairwise
      (fun a b => ¬ Conflicting a b) ∧
    removeConflictingContacts
        [{ normal := ⟨1, 0, 0⟩, distance := -1, bodyB := 1, subShapeIDB := 3 },
         { normal := ⟨-1, 0, 0⟩, distance := -1/2, bodyB := 1, subShapeIDB := 4 }] =
      ([{ normal := ⟨1, 0, 0⟩, distance := -1, bodyB := 1, subShapeIDB := 3 }], [⟨1, 4⟩]) := by
  constructor
  · exact (c3_conflict_pruning.1 _)
  · exact c3_conflict_pruning.2.2.1
      { normal := ⟨1, 0, 0⟩, distance := -1, bodyB := 1, subShapeIDB := 3 }
      { normal := ⟨-1, 0, 0⟩, distance := -1/2, bodyB := 1, subShapeIDB := 4 }
      (of_decide_eq_true (by with_unfolding_all rfl))
      (of_decide_eq_true (by with_unfolding_all rfl))

/-! ### External collaborators

The narrow phase, the body lock interfaces and the contact listener live
outside the translated sources; they are modelled as oracle functions.  A
hit of the overlap query carries the contact the collector would build from
the locked body (`sFillContactProperties`) together with the lock outcome; a
hit of the cast query additionally carries the penetration axis tested by
`ContactCastCollector`. -/

/-- Overlap-query hit as consumed by `ContactCollector::AddHit`. -/
structure CollideHit where
  contact : Contact
  lockSuccess : Bool

/-- Cast-query hit as consumed by `ContactCastCollector::AddHit`. -/
structure CastHit where
  contact : Contact
  penetrationAxis : Vec3
  lockSuccess : Bool

/-- Oracle bundle for the external collaborators: `collide` models
`NarrowPhaseQuery::CollideShape` (position, movement direction hint, shape
handle; the rotation-based transform and the centre of mass offset live
inside the query), `castHits` models `NarrowPhaseQuery::CastShape`,
`validate` models `ValidateContact` (a null listener validates everything),
`contactAdded` models the settings produced by `OnContactAdded`, and
`lockWrite` models the success of the body write lock in `HandleContact`.
The C++ code hands the query a normalized movement direction; since the
direction is only a hint consumed inside the external query, the raw
velocity is passed through here. -/
structure Env where
  collide : Vec3 → Vec3 → Nat → List CollideHit
  castHits : Vec3 → Vec3 → List CastHit
  validate : Nat → Nat → Bool
  contactAdded : Nat → Nat → CharacterContactSettings
  lockWrite : Nat → Bool

/-- Flags of a freshly collected contact: a default-constructed C++ `Contact`
(its flags are not touched by `sFillContactProperties`). -/
def resetFlags (c : Contact) : Contact :=
  { c with hadCollision := false, wasDiscarded := false, canPushCharacter := true }

/-- Contact discovery, modelling `GetContactsAtPosition` (lines 84-108): run
the overlap query, keep the hits whose body lock succeeded (capped at
`cMaxNumHits` by the early-out), set `fraction = 0`, and subtract the
character padding from every distance. -/
def getContactsAtPosition (env : Env) (position movementDirection : Vec3)
    (shape : Nat) : List Contact :=
  ((((env.collide position movementDirection shape).filter
      (fun h => h.lockSuccess)).take cMaxNumHits).map
    (fun h => { resetFlags h.contact with fraction := 0 })).map
    (fun c => { c with distance := c.distance - cCharacterPadding })

/-! ### Supporting contact (`UpdateSupportingContact`, lines 519-536) -/

/-- First phase of `UpdateSupportingContact` (lines 521-525): flag every
non-discarded contact that is within `cCollisionTolerance` as colliding,
preserving flags set by the solver. -/
def flagCollisions (contacts : List Contact) : List Contact :=
  contacts.map fun c =>
    if c.wasDiscarded then c
    else { c with hadCollision := c.hadCollision || decide (c.distance < cCollisionTolerance) }

/-- Second phase of `UpdateSupportingContact` (lines 527-535): find the
colliding contact whose normal points most upward, starting from
`max_y = -FLT_MAX`. -/
def findSupporting : List Contact → ℚ → Option Contact → Option Contact
  | [], _, supp => supp
  | c :: rest, maxY, supp =>
    if c.hadCollision ∧ maxY < c.normal.y then findSupporting rest c.normal.y (some c)
    else findSupporting rest maxY supp

/-- Modelling `UpdateSupportingContact`: returns the flagged contact list (the
mutation of `mActiveContacts`) and the new `mSupportingContact`. -/
def updateSupportingContact (contacts : List Contact) :
    List Contact × Option Contact :=
  (flagCollisions contacts, findSupporting (flagCollisions contacts) (-fltMax) none)

/-- Ground state classification, modelling `EGroundState`. -/
inductive EGroundState where
  | OnGround
  | Sliding
  | InAir
deriving DecidableEq

/-- Character state, modelling the `CharacterVirtual` fields the translated
operations read and write.  The shape is an opaque handle (`none` models a
null shape pointer), `system` records whether `mSystem` is non-null, and the
supporting contact stores the contact value the C++ pointer refers to.
Rotation, mass and maximum strength only feed the external transform and the
impulse computation and are omitted. -/
structure CharState where
  position : Vec3
  linearVelocity : Vec3
  shape : Option Nat
  system : Bool
  cosMaxSlopeAngle : ℚ
  penetrationRecoverySpeed : ℚ
  activeContacts : List Contact
  supportingContact : Option Contact
deriving DecidableEq

/-- Ground state query, modelling `GetGroundState` (lines 655-666). -/
def getGroundState (s : CharState) : EGroundState :=
  match s.supportingContact with
  | none => EGroundState.InAir
  | some c =>
    if s.cosMaxSlopeAngle < 999 / 1000 ∧ 0 ≤ c.normal.y ∧ c.normal.y < s.cosMaxSlopeAngle then
      EGroundState.Sliding
    else
      EGroundState.OnGround

/-- Contact refresh, modelling `RefreshContacts` (lines 611-621, through
`StoreActiveContacts`): re-query contacts at the current position and rebuild
the supporting-contact bookkeeping. -/
def refreshContacts (env : Env) (s : CharState) : CharState :=
  let contacts := getContactsAtPosition env s.position s.linearVelocity (s.shape.getD 0)
  let fs := updateSupportingContact contacts
  { s with activeContacts := fs.1, supportingContact := fs.2 }

/-! ### Claims C4, C5, C9 -/

/-- Invariant of `findSupporting`: a returned contact either was the incoming
candidate (and nothing scanned beats the incoming bound), or it is a
colliding contact of the scanned list, at least as high as the bound, that no
colliding scanned contact beats. -/
theorem findSupporting_spec :
    ∀ (l : List Contact) (maxY : ℚ) (supp : Option Contact) (c : Contact),
      findSupporting l maxY supp = some c →
      (supp = some c ∧ ∀ c' ∈ l, c'.hadCollision = true → c'.normal.y ≤ maxY) ∨
      (c ∈ l ∧ c.hadCollision = true ∧ maxY ≤ c.normal.y ∧
        ∀ c' ∈ l, c'.hadCollision = true → c'.normal.y ≤ c.normal.y) := by
  intro l
  induction l with
  | nil =>
    intro maxY supp c h
    simp only [findSupporting] at h
    exact Or.inl ⟨h, by simp⟩
  | cons c1 rest ih =>
    intro maxY supp c h
    simp only [findSupporting] at h
    by_cases hcond : c1.hadCollision = true ∧ maxY < c1.normal.y
    · rw [if_pos hcond] at h
      rcases ih _ _ _ h with ⟨hsome, hbound⟩ | ⟨hmem, hcol, hge, hbound⟩
      · obtain hc1 := Option.some.inj hsome
        subst hc1
        refine Or.inr ⟨List.mem_cons_self _ _, hcond.1, le_of_lt hcond.2, ?_⟩
        intro c' hc' hcol'
        rcases List.mem_cons.mp hc' with h1 | h1
        · subst h1; exact le_refl _
        · exact hbound c' h1 hcol'
      · refine Or.inr ⟨List.mem_cons_of_mem c1 hmem, hcol,
          le_trans (le_of_lt hcond.2) hge, ?_⟩
        intro c' hc' hcol'
        rcases List.mem_cons.mp hc' with h1 | h1
        · subst h1; exact hge
        · exact hbound c' h1 hcol'
    · rw [if_neg hcond] at h
      rcases ih _ _ _ h with ⟨hsome, hbound⟩ | ⟨hmem, hcol, hge, hbound⟩
      · refine Or.inl ⟨hsome, ?_⟩
        intro c' hc' hcol'
        rcases List.mem_cons.mp hc' with h1 | h1
        · subst h1
          exact le_of_not_lt fun hlt => hcond ⟨hcol', hlt⟩
        · exact hbound c' h1 hcol'
      · refine Or.inr ⟨List.mem_cons_of_mem c1 hmem, hcol, hge, ?_⟩
        intro c' hc' hcol'
        rcases List.mem_cons.mp hc' with h1 | h1
        · subst h1
          exact le_trans (le_of_not_lt fun hlt => hcond ⟨hcol', hlt⟩) hge
        · exact hbound c' h1 hcol'

/-- C4 (counterexample): after a `RefreshContacts` that finds a single
ceiling contact with normal `(0, -1, 0)` — the query oracle returning what
the narrow phase reports for a character pressed against a ceiling — the
supporting contact is non-null and its normal has `y = -1 < 0`, refuting the
claimed invariant `normal.y ≥ 0`. -/
theorem c4_counterexample :
    ((refreshContacts
        ⟨fun _ _ _ => [⟨{ normal := ⟨0, -1, 0⟩, distance := 0, bodyB := 1 }, true⟩],
         fun _ _ => [], fun _ _ => true, fun _ _ => {}, fun _ => true⟩
        ⟨Vec3.zero, Vec3.zero, some 0, true, 999/2000, 1, [], none⟩).supportingContact.map
      (fun c => c.normal.y)) = some (-1) ∧ ((-1 : ℚ) < 0) := by
  constructor
  · with_unfolding_all rfl
  · exact of_decide_eq_true (by with_unfolding_all rfl)

/-- C4 (amended): whenever `UpdateSupportingContact` produces a non-null
supporting contact, that contact is one of the stored active contacts, is
marked as colliding, and its normal `y` component is maximal among the
colliding active contacts — but it is not necessarily nonnegative. -/
theorem c4_amended (contacts : List Contact) (c : Contact)
    (h : (updateSupportingContact contacts).2 = some c) :
    c ∈ (updateSupportingContact contacts).1 ∧ c.hadCollision = true ∧
      ∀ c' ∈ (updateSupportingContact contacts).1, c'.hadCollision = true →
        c'.normal.y ≤ c.normal.y := by
  unfold updateSupportingContact at h ⊢
  rcases findSupporting_spec _ _ _ _ h with ⟨hsome, _⟩ | ⟨hmem, hcol, _, hbound⟩
  · cases hsome
  · exact ⟨hmem, hcol, hbound⟩

/-- Witness for `c4_amended`: the ceiling contact of the counterexample is
itself the supporting contact, colliding and maximal. -/
theorem c4_amended_witness :
    { normal := ⟨0, -1, 0⟩, distance := -1/50, bodyB := 1, hadCollision := true } ∈
        (updateSupportingContact
          [{ normal := ⟨0, -1, 0⟩, distance := -1/50, bodyB := 1 }]).1 ∧
      Contact.hadCollision
        { normal := ⟨0, -1, 0⟩, distance := -1/50, bodyB := 1, hadCollision := true } = true ∧
      ∀ c' ∈ (updateSupportingContact
          [{ normal := ⟨0, -1, 0⟩, distance := -1/50, bodyB := 1 }]).1,
        c'.hadCollision = true →
        c'.normal.y ≤ Vec3.y (Contact.normal
          { normal := ⟨0, -1, 0⟩, distance := -1/50, bodyB := 1, hadCollision := true }) :=
  c4_amended [{ normal := ⟨0, -1, 0⟩, distance := -1/50, bodyB := 1 }]
    { normal := ⟨0, -1, 0⟩, distance := -1/50, bodyB := 1, hadCollision := true }
    (by with_unfolding_all rfl)

/-- C5 (counterexample): with the slope limit numerically disabled
(`cos_max_slope_angle = 0.9995 ≥ 0.999`) and a supporting contact whose
normal has `y = 1/2 ∈ [0, cos_max_slope_angle)`, the claim demands `Sliding`
but `GetGroundState` returns `OnGround`: the claim omits the
`cos_max_slope_angle < 0.999` guard. -/
theorem c5_counterexample :
    getGroundState
        ⟨Vec3.zero, Vec3.zero, some 0, true, 9995/10000, 1, [],
          some { normal := ⟨0, 1/2, 0⟩, hadCollision := true }⟩ =
      EGroundState.OnGround ∧
    (0 : ℚ) ≤ (1/2 : ℚ) ∧ (1/2 : ℚ) < 9995/10000 := by
  refine ⟨?_, ?_, ?_⟩
  · with_unfolding_all rfl
  · exact of_decide_eq_true (by with_unfolding_all rfl)
  · exact of_decide_eq_true (by with_unfolding_all rfl)

/-- C5 (amended): `GetGroundState` returns `InAir` iff the supporting contact
is null; with a supporting contact it returns `Sliding` iff the slope limit
is active (`cos_max_slope_angle < 0.999`) and the contact normal has
`y ∈ [0, cos_max_slope_angle)`; in every other case it returns `OnGround`. -/
theorem c5_amended (s : CharState) :
    (getGroundState s = EGroundState.InAir ↔ s.supportingContact = none) ∧
    (∀ c, s.supportingContact = some c →
      ((getGroundState s = EGroundState.Sliding ↔
        (s.cosMaxSlopeAngle < 999/1000 ∧ 0 ≤ c.normal.y ∧
          c.normal.y < s.cosMaxSlopeAngle)) ∧
       (getGroundState s = EGroundState.OnGround ↔
        ¬ (s.cosMaxSlopeAngle < 999/1000 ∧ 0 ≤ c.normal.y ∧
          c.normal.y < s.cosMaxSlopeAngle)))) := by
  constructor
  · cases hs : s.supportingContact with
    | none =>
      have hgs : getGroundState s = EGroundState.InAir := by
        unfold getGroundState; rw [hs]
      simp [hgs]
    | some c =>
      have hgs : getGroundState s =
          (if s.cosMaxSlopeAngle < 999/1000 ∧ 0 ≤ c.normal.y ∧
              c.normal.y < s.cosMaxSlopeAngle
           then EGroundState.Sliding else EGroundState.OnGround) := by
        unfold getGroundState; rw [hs]
      rw [hgs]
      constructor
      · intro h
        split at h <;> cases h
      · intro h; cases h
  · intro c hc
    have hgs : getGroundState s =
        (if s.cosMaxSlopeAngle < 999/1000 ∧ 0 ≤ c.normal.y ∧
            c.normal.y < s.cosMaxSlopeAngle
         then EGroundState.Sliding else EGroundState.OnGround) := by
      unfold getGroundState; rw [hc]
    rw [hgs]
    by_cases hcond : s.cosMaxSlopeAngle < 999/1000 ∧ 0 ≤ c.normal.y ∧
        c.normal.y < s.cosMaxSlopeAngle
    · rw [if_pos hcond]
      exact ⟨⟨fun _ => hcond, fun _ => rfl⟩,
        ⟨fun h => (nomatch h), fun hn => (hn hcond).elim⟩⟩
    · rw [if_neg hcond]
      exact ⟨⟨fun h => (nomatch h), fun hcnd => (hcond hcnd).elim⟩,
        ⟨fun _ => hcond, fun _ => rfl⟩⟩

/-- Witness for `c5_amended`: a steep supporting contact under an active
slope limit is classified as `Sliding`. -/
theorem c5_amended_witness :
    getGroundState
        ⟨Vec3.zero, Vec3.zero, some 0, true, 999/2000, 1, [],
          some { normal := ⟨0, 1/4, 0⟩, hadCollision := true }⟩ =
      EGroundState.Sliding :=
  ((c5_amended
      ⟨Vec3.zero, Vec3.zero, some 0, true, 999/2000, 1, [],
        some { normal := ⟨0, 1/4, 0⟩, hadCollision := true }⟩).2
    { normal := ⟨0, 1/4, 0⟩, hadCollision := true } rfl).1.mpr
    (of_decide_eq_true (by with_unfolding_all rfl))

/-- C9: after `UpdateSupportingContact` runs, every stored contact that was
not discarded and whose distance is below `cCollisionTolerance` is marked as
colliding — by proximity alone, whether or not the solver collided with it;
the same holds for the contact list stored by `RefreshContacts`. -/
theorem c9_proximity_collision :
    (∀ (contacts : List Contact), ∀ c ∈ (updateSupportingContact contacts).1,
      c.wasDiscarded = false → c.distance < cCollisionTolerance →
      c.hadCollision = true) ∧
    (∀ (env : Env) (s : CharState), ∀ c ∈ (refreshContacts env s).activeContacts,
      c.wasDiscarded = false → c.distance < cCollisionTolerance →
      c.hadCollision = true) := by
  have hmain : ∀ (contacts : List Contact), ∀ c ∈ flagCollisions contacts,
      c.wasDiscarded = false → c.distance < cCollisionTolerance →
      c.hadCollision = true := by
    intro contacts c hc hdisc hdist
    obtain ⟨c0, hc0, heq⟩ := List.mem_map.mp hc
    by_cases hd : c0.wasDiscarded
    · rw [if_pos hd] at heq
      subst heq
      rw [hdisc] at hd
      cases hd
    · rw [if_neg hd] at heq
      subst heq
      simp only [Bool.or_eq_true, decide_eq_true_eq]
      exact Or.inr hdist
  constructor
  · intro contacts c hc
    exact hmain contacts c hc
  · intro env s c hc
    exact hmain _ c hc

/-- Witness for `c9_proximity_collision`: a non-discarded contact at distance
zero is flagged as colliding. -/
theorem c9_proximity_collision_witness :
    Contact.hadCollision { distance := 0, bodyB := 2, hadCollision := true } = true :=
  c9_proximity_collision.1 [{ distance := 0, bodyB := 2 }]
    { distance := 0, bodyB := 2, hadCollision := true }
    (of_decide_eq_true (by with_unfolding_all rfl))
    rfl (of_decide_eq_true (by with_unfolding_all rfl))

/-! ### Impulse transfer (`HandleContact`, lines 252-315)

The impulse magnitude computed after the body write lock succeeds only
affects the external body (it is applied through the host interface) and
every code path after the lock returns `true`; the model therefore returns
the boolean outcome together with the contact as mutated by the listener
settings (`mCanPushCharacter`, line 264). -/

/-- Modelling `HandleContact`: `false` when the listener vetoes the contact
(line 257) or when the write lock on a dynamic, impulse-receiving body fails
because the body was removed (lines 271-273); `true` on every other path. -/
def handleContact (env : Env) (velocity : Vec3) (contact : Contact)
    (gravity : Vec3) (deltaTime : ℚ) : Bool × Contact :=
  if env.validate contact.bodyB contact.subShapeIDB = false then
    (false, contact)
  else
    let settings := env.contactAdded contact.bodyB contact.subShapeIDB
    let contact2 := { contact with canPushCharacter := settings.canPushCharacter }
    if settings.canReceiveImpulses = false ∨ contact2.motionTypeB ≠ EMotionType.Dynamic then
      (true, contact2)
    else if env.lockWrite contact2.bodyB = false then
      (false, contact2)
    else
      (true, contact2)

/-- C6 (counterexample): a validated contact with a dynamic body that can
receive impulses still makes `HandleContact` return `false` when the body
write lock fails (body removed between query and lock) — a non-veto `false`
return refuting the claim. -/
theorem c6_counterexample :
    (handleContact
        ⟨fun _ _ _ => [], fun _ _ => [], fun _ _ => true, fun _ _ => {}, fun _ => false⟩
        Vec3.zero { bodyB := 5, motionTypeB := .Dynamic } Vec3.zero (1/60)).1 = false ∧
    Env.validate
        ⟨fun _ _ _ => [], fun _ _ => [], fun _ _ => true, fun _ _ => {}, fun _ => false⟩
        5 0 = true := by
  constructor
  · with_unfolding_all rfl
  · with_unfolding_all rfl

/-- C6 (amended): `HandleContact` returns `false` exactly when the listener
vetoes the contact, or when the contact body is dynamic, may receive
impulses, and its write lock fails (the body was removed); in every other
case — non-dynamic body, impulses disallowed, or separating bodies — it
returns `true`. -/
theorem c6_amended (env : Env) (velocity : Vec3) (contact : Contact)
    (gravity : Vec3) (deltaTime : ℚ) :
    (handleContact env velocity contact gravity deltaTime).1 = false ↔
      (env.validate contact.bodyB contact.subShapeIDB = false ∨
       (env.validate contact.bodyB contact.subShapeIDB = true ∧
        (env.contactAdded contact.bodyB contact.subShapeIDB).canReceiveImpulses = true ∧
        contact.motionTypeB = EMotionType.Dynamic ∧
        env.lockWrite contact.bodyB = false)) := by
  unfold handleContact
  by_cases hv : env.validate contact.bodyB contact.subShapeIDB = false
  · rw [if_pos hv]
    simp [hv]
  · rw [if_neg hv]
    have hv2 : env.validate contact.bodyB contact.subShapeIDB = true := by
      revert hv; cases env.validate contact.bodyB contact.subShapeIDB <;> simp
    by_cases hr : (env.contactAdded contact.bodyB contact.subShapeIDB).canReceiveImpulses
        = false ∨ contact.motionTypeB ≠ EMotionType.Dynamic
    · rw [if_pos hr]
      simp only []
      constructor
      · intro h; cases h
      · intro h
        rcases h with h | ⟨_, hrec, hdyn, _⟩
        · exact absurd h hv
        · rcases hr with hr | hr
          · rw [hrec] at hr; cases hr
          · exact absurd hdyn hr
    · rw [if_neg hr]
      push_neg at hr
      obtain ⟨hrec, hdyn⟩ := hr
      have hrec2 : (env.contactAdded contact.bodyB contact.subShapeIDB).canReceiveImpulses
          = true := by
        revert hrec
        cases (env.contactAdded contact.bodyB contact.subShapeIDB).canReceiveImpulses <;> simp
      by_cases hl : env.lockWrite contact.bodyB = false
      · rw [if_pos hl]
        simp [hv2, hrec2, hdyn, hl]
      · rw [if_neg hl]
        simp only []
        constructor
        · intro h; cases h
        · intro h
          rcases h with h | ⟨_, _, _, hlock⟩
          · exact absurd h hv
          · exact absurd hlock hl

/-- Witness for `c6_amended`: a contact on a kinematic body is never a
`false` return, whatever the lock does. -/
theorem c6_amended_witness :
    ¬ (handleContact
        ⟨fun _ _ _ => [], fun _ _ => [], fun _ _ => true, fun _ _ => {}, fun _ => false⟩
        Vec3.zero { bodyB := 6, motionTypeB := .Kinematic } Vec3.zero (1/60)).1 = false := by
  intro h
  rcases (c6_amended
      ⟨fun _ _ _ => [], fun _ _ => [], fun _ _ => true, fun _ _ => {}, fun _ => false⟩
      Vec3.zero { bodyB := 6, motionTypeB := .Kinematic } Vec3.zero (1/60)).mp h with
    hveto | ⟨_, _, hdyn, _⟩
  · exact absurd hveto (by with_unfolding_all simp)
  · exact absurd hdyn (by with_unfolding_all simp)

/-! ### Shape switching (`SetShape`, lines 623-653) -/

/-- Modelling `SetShape`.  An uninitialized character (null shape or null
system) takes the new shape unconditionally; a genuinely new non-null shape
is first checked at the current position — any contact deeper than the
given maximum penetration (when that maximum is below `FLT_MAX`) aborts the
switch with `false` and no state change; otherwise the shape is stored and
the contacts refreshed through `StoreActiveContacts`.  The final result is
the C++ `return mShape == inShape`. -/
def setShape (env : Env) (s : CharState) (newShape : Option Nat) (maxPenetrationDepth : ℚ) :
    CharState × Bool :=
  if s.shape = none ∨ s.system = false then
    ({ s with shape := newShape }, true)
  else if newShape ≠ s.shape ∧ newShape.isSome then
    let contacts := getContactsAtPosition env s.position s.linearVelocity (newShape.getD 0)
    if maxPenetrationDepth < fltMax ∧
        contacts.any (fun c => decide (c.distance < -maxPenetrationDepth)) then
      (s, false)
    else
      let fs := updateSupportingContact contacts
      ({ s with shape := newShape, activeContacts := fs.1, supportingContact := fs.2 }, true)
  else
    (s, decide (s.shape = newShape))

/-! ### Claims C7 and C10 -/

/-- C7: with an initialized character (non-null shape and system), a genuinely
new non-null shape, a penetration budget below `FLT_MAX`, and a contact query
at the current position reporting a contact deeper than that budget,
`SetShape` returns `false` and leaves the whole character state — shape and
active contacts included — unchanged. -/
theorem c7_setshape_refusal (env : Env) (s : CharState) (newShape : Nat)
    (maxPenetrationDepth : ℚ)
    (hshape : s.shape.isSome) (hsystem : s.system = true)
    (hnew : some newShape ≠ s.shape)
    (hmax : maxPenetrationDepth < fltMax)
    (hdeep : ∃ c ∈ getContactsAtPosition env s.position s.linearVelocity newShape,
      c.distance < -maxPenetrationDepth) :
    setShape env s (some newShape) maxPenetrationDepth = (s, false) := by
  unfold setShape
  rw [if_neg, if_pos ⟨hnew, rfl⟩, if_pos]
  · refine ⟨hmax, ?_⟩
    simp only [List.any_eq_true, decide_eq_true_eq, Option.getD_some]
    obtain ⟨c, hc, hcd⟩ := hdeep
    exact ⟨c, hc, hcd⟩
  · intro h
    rcases h with h | h
    · rw [h] at hshape; cases hshape
    · rw [hsystem] at h; cases h

/-- Witness for `c7_setshape_refusal`: a concrete query oracle reports a deep
contact for the candidate shape, and the switch is refused without side
effect. -/
theorem c7_setshape_refusal_witness :
    setShape
        ⟨fun _ _ _ => [⟨{ normal := ⟨1, 0, 0⟩, distance := -1, bodyB := 9 }, true⟩],
         fun _ _ => [], fun _ _ => true, fun _ _ => {}, fun _ => true⟩
        ⟨Vec3.zero, Vec3.zero, some 0, true, 999/2000, 1, [], none⟩
        (some 7) (1/2) =
      (⟨Vec3.zero, Vec3.zero, some 0, true, 999/2000, 1, [], none⟩, false) :=
  c7_setshape_refusal
    ⟨fun _ _ _ => [⟨{ normal := ⟨1, 0, 0⟩, distance := -1, bodyB := 9 }, true⟩],
     fun _ _ => [], fun _ _ => true, fun _ _ => {}, fun _ => true⟩
    ⟨Vec3.zero, Vec3.zero, some 0, true, 999/2000, 1, [], none⟩ 7 (1/2)
    (by with_unfolding_all rfl) rfl
    (of_decide_eq_true (by with_unfolding_all rfl))
    (of_decide_eq_true (by with_unfolding_all rfl))
    (of_decide_eq_true (by with_unfolding_all rfl))

/-- C10: on an initialized character (non-null shape and system), `SetShape`
with a null shape returns `false` and changes nothing; the result does not
depend on the query oracle at all — no contact query is performed. -/
theorem c10_setshape_null (env env2 : Env) (s : CharState) (maxPenetrationDepth : ℚ)
    (hshape : s.shape.isSome) (hsystem : s.system = true) :
    setShape env s none maxPenetrationDepth = (s, false) ∧
    setShape env s none maxPenetrationDepth = setShape env2 s none maxPenetrationDepth := by
  have hbranch : ∀ e : Env, setShape e s none maxPenetrationDepth = (s, false) := by
    intro e
    unfold setShape
    rw [if_neg, if_neg]
    · obtain ⟨x, hx⟩ := Option.isSome_iff_exists.mp hshape
      rw [hx]
      simp
    · intro h
      exact (by simp : ¬ (none : Option Nat).isSome = true) h.2
    · intro h
      rcases h with h | h
      · rw [h] at hshape; cases hshape
      · rw [hsystem] at h; cases h
  exact ⟨hbranch env, (hbranch env).trans (hbranch env2).symm⟩

/-- Witness for `c10_setshape_null`: concrete state and two different oracles. -/
theorem c10_setshape_null_witness :
    setShape
        ⟨fun _ _ _ => [⟨{ bodyB := 1 }, true⟩], fun _ _ => [], fun _ _ => true,
         fun _ _ => {}, fun _ => true⟩
        ⟨Vec3.zero, Vec3.zero, some 3, true, 1/2, 1, [], none⟩ none 1 =
      (⟨Vec3.zero, Vec3.zero, some 3, true, 1/2, 1, [], none⟩, false) :=
  (c10_setshape_null
    ⟨fun _ _ _ => [⟨{ bodyB := 1 }, true⟩], fun _ _ => [], fun _ _ => true,
     fun _ _ => {}, fun _ => true⟩
    ⟨fun _ _ _ => [], fun _ _ => [], fun _ _ => false, fun _ _ => {}, fun _ => false⟩
    ⟨Vec3.zero, Vec3.zero, some 3, true, 1/2, 1, [], none⟩ 1
    (by with_unfolding_all rfl) rfl).1

/-! ### Constraint derivation (`DetermineConstraints`, lines 209-250) -/

/-- Constraints emitted for a single contact (`DetermineConstraints` loop
body): the penetration-recovery velocity, the moving-away test, the primary
plane and — when the slope limit is active and the normal is upward but too
steep — the secondary horizontal constraint. -/
def constraintsForContact (cosMaxSlopeAngle penetrationRecoverySpeed : ℚ)
    (characterVelocity : Vec3) (idx : Nat) (c : Contact) : List Constraint :=
  let contactVelocity :=
    if c.distance < 0 then
      c.linearVelocity - (c.distance * penetrationRecoverySpeed) • c.normal
    else c.linearVelocity
  if 0 ≤ Vec3.dot c.normal (characterVelocity - contactVelocity) then []
  else
    let primary : Constraint :=
      { contactIdx := idx, linearVelocity := contactVelocity,
        plane := ⟨c.normal, c.distance⟩ }
    if cosMaxSlopeAngle < 999/1000 ∧ 0 ≤ c.normal.y ∧
        c.normal.y < cosMaxSlopeAngle then
      let n := normalizedQ ⟨c.normal.x, 0, c.normal.z⟩
      [primary,
       { contactIdx := idx, linearVelocity := (Vec3.dot contactVelocity n) • n,
         plane := ⟨n, c.distance / Vec3.dot n c.normal⟩ }]
    else [primary]

/-- Modelling `DetermineConstraints`: every contact contributes its
constraints in order; the constraint back-pointer is the index of the contact
in the list. -/
def determineConstraints (cosMaxSlopeAngle penetrationRecoverySpeed : ℚ)
    (characterVelocity : Vec3) (contacts : List Contact) : List Constraint :=
  contacts.enum.flatMap fun p =>
    constraintsForContact cosMaxSlopeAngle penetrationRecoverySpeed
      characterVelocity p.1 p.2

/-! ### Constraint solver (`SolveConstraints`, lines 317-517) -/

/-- Insertion of an element into a sorted list (helper for the deterministic
sort used to model `std::sort`, whose order on tied elements is
unspecified). -/
def insertSorted {α : Type} (le : α → α → Bool) (a : α) : List α → List α
  | [] => [a]
  | b :: l => if le a b then a :: b :: l else b :: insertSorted le a l

/-- Deterministic sort modelling `std::sort` over the constraint pointers.
The verified claims depend only on the comparator, not on the order of tied
elements, which C++ leaves unspecified. -/
def insertionSort {α : Type} (le : α → α → Bool) : List α → List α
  | [] => []
  | a :: l => insertSorted le a (insertionSort le l)

/-- Solver output: the contact list with the flags set by the solve, the
accumulated displacement, and the simulated time. -/
structure SolveOut where
  contacts : List Contact
  displacement : Vec3
  timeSimulated : ℚ
deriving DecidableEq

/-- Scan of the sorted constraints for the first usable one (`SolveConstraints`
lines 389-427).  `none` means the goal is reached (first reachable constraint
has `toi ≥ time_remaining`, or every constraint was discarded).  Handling a
fresh contact may mark it discarded (veto or lost body) or colliding, and a
contact that cannot push the character has the constraint velocity zeroed. -/
def pickConstraint (env : Env) (velocity gravity : Vec3)
    (deltaTime timeRemaining : ℚ) :
    List Nat → List Contact → List Constraint →
    List Contact × List Constraint × Option Nat
  | [], contacts, constraints => (contacts, constraints, none)
  | i :: rest, contacts, constraints =>
    let c := constraints.getD i default
    if timeRemaining ≤ c.toi then (contacts, constraints, none)
    else
      let ct := contacts.getD c.contactIdx default
      if ct.wasDiscarded then
        pickConstraint env velocity gravity deltaTime timeRemaining rest contacts constraints
      else if ct.hadCollision then
        if ct.canPushCharacter then (contacts, constraints, some i)
        else (contacts, constraints.set i { c with linearVelocity := Vec3.zero }, some i)
      else
        let hc := handleContact env velocity ct gravity deltaTime
        if hc.1 then
          let ct2 := { hc.2 with hadCollision := true }
          if ct2.canPushCharacter then
            (contacts.set c.contactIdx ct2, constraints, some i)
          else
            (contacts.set c.contactIdx ct2,
             constraints.set i { c with linearVelocity := Vec3.zero }, some i)
        else
          pickConstraint env velocity gravity deltaTime timeRemaining rest
            (contacts.set c.contactIdx { hc.2 with wasDiscarded := true }) constraints

/-- Search over the previous contacts for the constraint most violated by the
candidate velocity (`SolveConstraints` lines 459-478); candidates whose
normal is within about ten degrees of (anti-)parallel to the current plane
are skipped without raising the bar, exactly as in the code. -/
def findOther (constraints : List Constraint) (cur : Nat)
    (newVelocity planeNormal : Vec3) :
    List Nat → ℚ → Option Nat → Option Nat
  | [], _, best => best
  | j :: rest, highest, best =>
    if j = cur then findOther constraints cur newVelocity planeNormal rest highest best
    else
      let oc := constraints.getD j default
      let pen := Vec3.dot (oc.linearVelocity - newVelocity) oc.plane.normal
      if highest < pen then
        let d := Vec3.dot oc.plane.normal planeNormal
        if d < 984/1000 ∧ -(984/1000) < d then
          findOther constraints cur newVelocity planeNormal rest pen (some j)
        else findOther constraints cur newVelocity planeNormal rest highest best
      else findOther constraints cur newVelocity planeNormal rest highest best

/-- The solver loop of `SolveConstraints` (lines 345-516), fuelled by the
iteration bound.  Each iteration recomputes all TOIs with
`updateConstraintTOI`, re-sorts the constraint order with `constraintLess`,
picks the first usable constraint, advances to it, projects the velocity into
its plane and, when a previous contact would be violated, slides along the
crease of the two planes. -/
def solveLoop (env : Env) (gravity : Vec3) (deltaTime : ℚ) :
    Nat → List Contact → List Constraint → List Nat → Vec3 → Vec3 → ℚ → ℚ →
    List Nat → SolveOut
  | 0, contacts, _, _, _, displacement, _, timeSimulated, _ =>
    ⟨contacts, displacement, timeSimulated⟩
  | n + 1, contacts, constraints, order, velocity, displacement, timeRemaining,
      timeSimulated, previous =>
    let constraints2 := constraints.map
      (updateConstraintTOI velocity displacement timeRemaining)
    let order2 := insertionSort
      (fun i j => ! constraintLess contacts (constraints2.getD j default)
        (constraints2.getD i default)) order
    match pickConstraint env velocity gravity deltaTime timeRemaining order2
        contacts constraints2 with
    | (contacts3, _, none) =>
      ⟨contacts3, displacement + timeRemaining • velocity, timeSimulated + timeRemaining⟩
    | (contacts3, constraints3, some i) =>
      let c := constraints3.getD i default
      let displacement2 := displacement + c.toi • velocity
      let timeRemaining2 := timeRemaining - c.toi
      let timeSimulated2 := timeSimulated + c.toi
      if timeRemaining2 < cMinTimeRemaining then
        ⟨contacts3, displacement2, timeSimulated2⟩
      else
        let previous2 := if 1/10000 < c.toi then [] else previous
        let planeNormal := c.plane.normal
        let newVelocity :=
          velocity - (Vec3.dot (velocity - c.linearVelocity) planeNormal) • planeNormal
        match findOther constraints3 i newVelocity planeNormal previous2 0 none with
        | some j =>
          let oc := constraints3.getD j default
          let otherNormal := oc.plane.normal
          let slideDir := normalizedQ (Vec3.cross planeNormal otherNormal)
          let velocityInSlide := (Vec3.dot newVelocity slideDir) • slideDir
          let cLin := c.linearVelocity -
            (min 0 (Vec3.dot c.linearVelocity otherNormal)) • otherNormal
          let oLin := oc.linearVelocity -
            (min 0 (Vec3.dot oc.linearVelocity planeNormal)) • planeNormal
          let perpendicularVelocity := cLin - (Vec3.dot cLin slideDir) • slideDir
          let otherPerpendicularVelocity := oLin - (Vec3.dot oLin slideDir) • slideDir
          let velocity2 := velocityInSlide + perpendicularVelocity + otherPerpendicularVelocity
          let constraints4 := (constraints3.set i { c with linearVelocity := cLin }).set j
            { oc with linearVelocity := oLin }
          if velocity2.lengthSq < 1/100000000 then
            ⟨contacts3, displacement2, timeSimulated2⟩
          else
            solveLoop env gravity deltaTime n contacts3 constraints4 order2 velocity2
              displacement2 timeRemaining2 timeSimulated2 (previous2 ++ [i])
        | none =>
          if newVelocity.lengthSq < 1/100000000 then
            ⟨contacts3, displacement2, timeSimulated2⟩
          else
            solveLoop env gravity deltaTime n contacts3 constraints3 order2 newVelocity
              displacement2 timeRemaining2 timeSimulated2 (previous2 ++ [i])

/-- Modelling `SolveConstraints`: no constraints lets the character reach the
goal at once (lines 319-325); otherwise the fuelled loop runs with the
constraint order initialized to list order. -/
def solveConstraints (env : Env) (velocity gravity : Vec3)
    (deltaTime timeRemaining : ℚ) (constraints : List Constraint)
    (contacts : List Contact) : SolveOut :=
  if constraints.isEmpty then ⟨contacts, timeRemaining • velocity, timeRemaining⟩
  else
    solveLoop env gravity deltaTime cMaxConstraintIterations contacts constraints
      (List.range constraints.length) velocity Vec3.zero timeRemaining 0 []

/-! ### Sweep verification (`GetFirstContactForSweep`, lines 157-207) -/

/-- Filter of `ContactCastCollector::AddHit` (lines 57-82): drop hits at zero
fraction, hits we are moving away from, ignored pairs and hits whose body
lock failed; cap at `cMaxNumHits`. -/
def castCollect (displacement : Vec3) (ignoredContacts : List IgnoredContact)
    (hits : List CastHit) : List Contact :=
  (((hits.filter fun h =>
      decide (0 < h.contact.fraction) &&
      decide (0 < Vec3.dot h.penetrationAxis displacement) &&
      ! (ignoredContacts.any fun ic =>
          decide (ic.bodyID = h.contact.bodyB ∧ ic.subShapeID = h.contact.subShapeIDB)) &&
      h.lockSuccess).take cMaxNumHits).map
    fun h => resetFlags h.contact)

/-- Modelling `GetFirstContactForSweep`: skip a tiny displacement, collect the
cast hits, sort them by fraction, take the first one that would penetrate
beyond the collision tolerance and that the listener validates, and shorten
its fraction by the padding correction. -/
def getFirstContactForSweep (env : Env) (position displacement : Vec3)
    (ignoredContacts : List IgnoredContact) : Option Contact :=
  if displacement.lengthSq < 1/100000000 then none
  else
    let contacts := castCollect displacement ignoredContacts
      (env.castHits position displacement)
    if contacts.isEmpty then none
    else
      let sorted := insertionSort (fun a b => decide (a.fraction ≤ b.fraction)) contacts
      match sorted.find? (fun c =>
          decide (c.distance + Vec3.dot c.normal displacement < -cCollisionTolerance) &&
          env.validate c.bodyB c.subShapeIDB) with
      | none => none
      | some c =>
        let fraction2 := max 0 (c.fraction +
          cCharacterPadding / Vec3.dot c.normal displacement)
        some { c with fraction := fraction2 }

/-! ### The move loop (`MoveShape`, lines 545-596) and `Update` (lines 598-609) -/

/-- Iterations of `MoveShape`, fuelled by `cMaxCollisionIterations`; the C++
loop condition `time_remaining >= cMinTimeRemaining` is checked before every
iteration.  Each iteration discovers contacts, prunes conflicts, derives and
solves constraints, verifies the resulting displacement with a sweep and
advances the position; a negligible displacement ends the loop. -/
def moveShapeLoop (env : Env) (s : CharState) (velocity gravity : Vec3)
    (deltaTime : ℚ) :
    Nat → Vec3 → ℚ → List Contact → Vec3 × List Contact
  | 0, position, _, activeContacts => (position, activeContacts)
  | n + 1, position, timeRemaining, activeContacts =>
    if timeRemaining < cMinTimeRemaining then (position, activeContacts)
    else
      let contacts := getContactsAtPosition env position velocity (s.shape.getD 0)
      let pruned := removeConflictingContacts contacts
      let constraints := determineConstraints s.cosMaxSlopeAngle
        s.penetrationRecoverySpeed velocity pruned.1
      let solved := solveConstraints env velocity gravity deltaTime timeRemaining
        constraints pruned.1
      let swept := getFirstContactForSweep env position solved.displacement pruned.2
      let displacement :=
        match swept with
        | some castContact => castContact.fraction • solved.displacement
        | none => solved.displacement
      let timeSimulated :=
        match swept with
        | some castContact => castContact.fraction * solved.timeSimulated
        | none => solved.timeSimulated
      let position2 := position + displacement
      let timeRemaining2 := timeRemaining - timeSimulated
      if displacement.lengthSq < 1/100000000 then (position2, solved.contacts)
      else
        moveShapeLoop env s velocity gravity deltaTime n position2 timeRemaining2
          solved.contacts

/-- Modelling `MoveShape`: run the move iterations starting from the given
position with the full time budget.  The stored active contacts keep their
previous value when the loop body never runs. -/
def moveShape (env : Env) (s : CharState) (position velocity gravity : Vec3)
    (deltaTime : ℚ) (activeContacts : List Contact) : Vec3 × List Contact :=
  moveShapeLoop env s velocity gravity deltaTime cMaxCollisionIterations position
    deltaTime activeContacts

/-- Modelling `Update` (lines 598-609): slide the shape through the world,
derive the velocity from the actual motion (the rational model yields zero
where the float division by a zero `deltaTime` would produce NaN), and redo
the supporting-contact bookkeeping. -/
def update (env : Env) (s : CharState) (deltaTime : ℚ) (gravity : Vec3) : CharState :=
  let moved := moveShape env s s.position s.linearVelocity gravity deltaTime
    s.activeContacts
  let newVelocity := (1 / deltaTime) • (moved.1 - s.position)
  let fs := updateSupportingContact moved.2
  { s with position := moved.1, linearVelocity := newVelocity,
           activeContacts := fs.1, supportingContact := fs.2 }

/-! ### Claim C8 -/

/-- C8: an `Update` with a zero time step and zero gravity on a character
whose linear velocity is zero leaves the position unchanged — the move loop
guard `time_remaining >= MIN_TIME_REMAINING` fails immediately. -/
theorem c8_update_noop (env : Env) (s : CharState) (gravity : Vec3)
    (hv : s.linearVelocity = Vec3.zero) (hg : gravity = Vec3.zero) :
    (update env s 0 gravity).position = s.position := by
  have hloop : moveShape env s s.position s.linearVelocity gravity 0 s.activeContacts
      = (s.position, s.activeContacts) := by
    unfold moveShape
    rw [show cMaxCollisionIterations = 4 + 1 from rfl]
    simp only [moveShapeLoop]
    rw [if_pos (of_decide_eq_true (by with_unfolding_all rfl) :
      (0 : ℚ) < cMinTimeRemaining)]
  unfold update
  rw [hloop]

/-- Witness for `c8_update_noop`: concrete resting character, trivial
oracles. -/
theorem c8_update_noop_witness :
    (update ⟨fun _ _ _ => [], fun _ _ => [], fun _ _ => true, fun _ _ => {}, fun _ => true⟩
        ⟨⟨1, 2, 3⟩, Vec3.zero, some 0, true, 1/2, 1, [], none⟩ 0 Vec3.zero).position =
      ⟨1, 2, 3⟩ :=
  c8_update_noop
    ⟨fun _ _ _ => [], fun _ _ => [], fun _ _ => true, fun _ _ => {}, fun _ => true⟩
    ⟨⟨1, 2, 3⟩, Vec3.zero, some 0, true, 1/2, 1, [], none⟩ Vec3.zero rfl rfl

end JPH
